import Mathlib

set_option maxRecDepth 16384

/-!
Verification development for the RTP media-transport engine in Media.py
(classes Media, RTP, RTPStream, RTPFile, RTPRandomStream).

The Python code is shallowly embedded: bytes are lists of naturals below
256, Python unbounded ints are Int, Python floats are modelled by exact
rationals (noted where it matters), stateful methods are explicit state
transformers, and code paths that raise become Except.error carrying the
kind of Python exception raised.  Python integer operators are modelled
precisely: the right shift a >> n of an int is floor division by 2 ^ n
(Int.fdiv), a & m for a mask m = 2 ^ k - 1 is Int.emod a (2 ^ k), and
a % m for positive m is Int.emod a m.
-/

/-! ## The RTP packet codec (class RTP, Media.py lines 148-178) -/

/-- Two of-complement reinterpretation of a byte value, modelling that
struct.unpack_from with format !bbHLL (Media.py line 162) reads the two
header bytes h0, h1 as SIGNED bytes (format letter b, not B): a byte
below 128 keeps its value, a byte in 128..255 becomes value - 256. -/
def toSigned (n : Nat) : Int :=
  if n < 128 then (n : Int) else (n : Int) - 256

/-- Big-endian value of a list of byte values (the unsigned !H / !L
fields of struct.unpack_from). -/
def beVal (l : List Nat) : Nat :=
  l.foldl (fun a b => 256 * a + b) 0

/-- The RTP packet object (Media.py lines 149-155): nine header fields
plus the payload bytes.  Header fields are Int because Python ints are
unbounded and RTP.frombytes can produce negative values. -/
structure RTP where
  payload : List Nat
  PT : Int
  seq : Int
  TS : Int
  SSRC : Int
  version : Int
  P : Int
  X : Int
  CC : Int
  M : Int
deriving DecidableEq, Repr

/-- RTP.frombytes (Media.py lines 160-171).  The source unpacks
buf[:12] + 12*(zero byte) with format !bbHLL, so the byte at offset i,
for i < 12, is buf[i] when i < len(buf) and 0 otherwise -- here
buf.getD i 0.  h0 and h1 are signed bytes (see toSigned); seq, TS and
SSRC are unsigned big-endian 16/32/32-bit fields from offsets 2..11.
version = h0 >> 6, P = (h0 >> 5) & 1, X = (h0 >> 4) & 1, CC = h0 & 15,
M = h1 >> 7, PT = h1 & 127; payload = buf[12:].  The function is total:
it never raises, whatever the length of buf. -/
def RTP.frombytes (buf : List Nat) : RTP :=
  let b := fun i => buf.getD i 0
  let h0 := toSigned (b 0)
  let h1 := toSigned (b 1)
  { payload := buf.drop 12
    PT := Int.emod h1 128
    seq := (beVal [b 2, b 3] : Int)
    TS := (beVal [b 4, b 5, b 6, b 7] : Int)
    SSRC := (beVal [b 8, b 9, b 10, b 11] : Int)
    version := Int.fdiv h0 64
    P := Int.emod (Int.fdiv h0 32) 2
    X := Int.emod (Int.fdiv h0 16) 2
    CC := Int.emod h0 16
    M := Int.fdiv h1 128 }

/-- Bytes of an unsigned big-endian 16-bit value (struct format !H). -/
def be2 (n : Nat) : List Nat :=
  [n / 256 % 256, n % 256]

/-- Bytes of an unsigned big-endian 32-bit value (struct format !L). -/
def be4 (n : Nat) : List Nat :=
  [n / 2 ^ 24 % 256, n / 2 ^ 16 % 256, n / 256 % 256, n % 256]

/-- One header byte built by Python bitwise ors of left-shifted fields,
assigned into a bytearray cell (Media.py lines 175-176).  A bytearray
assignment raises ValueError unless the value is in range(0, 256); a
bitwise or with any negative operand is negative and therefore always
raises there, so negativity is checked first and the remaining
computation is an or of naturals. -/
def pyHeaderByte (parts : List (Int × Nat)) : Except String Nat :=
  if parts.any (fun q => q.1 < 0) then
    Except.error "ValueError: byte must be in range(0, 256)"
  else
    let n := parts.foldl (fun a q => Nat.lor a (q.1.toNat <<< q.2)) 0
    if n < 256 then Except.ok n
    else Except.error "ValueError: byte must be in range(0, 256)"

/-- RTP.tobytes (Media.py lines 173-178).  hdr[0] = version<<6 | P<<5 |
X<<4 | CC and hdr[1] = M<<7 | PT, then struct.pack_into with format
!HLL writes seq, TS, SSRC big-endian at offset 2 -- pack_into raises
struct.error unless 0 <= seq < 2^16 and 0 <= TS, SSRC < 2^32.  The
result is the 12 header bytes followed by the raw payload. -/
def RTP.tobytes (p : RTP) : Except String (List Nat) := do
  let h0 ← pyHeaderByte [(p.version, 6), (p.P, 5), (p.X, 4), (p.CC, 0)]
  let h1 ← pyHeaderByte [(p.M, 7), (p.PT, 0)]
  if p.seq < 0 ∨ 65536 ≤ p.seq then Except.error "struct.error: seq out of range" else
  if p.TS < 0 ∨ 4294967296 ≤ p.TS then Except.error "struct.error: TS out of range" else
  if p.SSRC < 0 ∨ 4294967296 ≤ p.SSRC then Except.error "struct.error: SSRC out of range" else
  Except.ok ([h0, h1] ++ be2 p.seq.toNat ++ be4 p.TS.toNat ++ be4 p.SSRC.toNat ++ p.payload)

/-- The concrete packet exhibiting the decode/encode mismatch: a
standard version-2 packet with the marker bit set and all other fields
zero. -/
def pktC1 : RTP :=
  { payload := [], PT := 0, seq := 0, TS := 0, SSRC := 0,
    version := 2, P := 0, X := 0, CC := 0, M := 1 }

/-- C1: the round trip RTP.frombytes (RTP.tobytes p) does NOT reproduce
every header field: because frombytes unpacks the first two header
bytes as signed (struct format b instead of B), the in-range packet
pktC1 with version = 2 and M = 1 encodes to bytes 0x80 0x80 ... and
decodes back with version = -2 and M = -1. -/
theorem cl1_roundtrip_fails_eval :
    RTP.tobytes pktC1 = Except.ok [128, 128, 0, 0, 0, 0, 0, 0, 0, 0, 0, 0]
    ∧ (RTP.frombytes [128, 128, 0, 0, 0, 0, 0, 0, 0, 0, 0, 0]).version = -2
    ∧ (RTP.frombytes [128, 128, 0, 0, 0, 0, 0, 0, 0, 0, 0, 0]).M = -1
    ∧ pktC1.version = 2 ∧ pktC1.M = 1
    ∧ RTP.frombytes [128, 128, 0, 0, 0, 0, 0, 0, 0, 0, 0, 0] ≠ pktC1 := by
  refine ⟨rfl, by decide, by decide, rfl, rfl, by decide⟩

/-- Every entry read with default 0 from a list of bytes is a byte. -/
theorem getD_lt_256 : ∀ (buf : List Nat), (∀ b ∈ buf, b < 256) → ∀ i, buf.getD i 0 < 256
  | [], _, i => by simp
  | b :: bs, hb, 0 => by simpa using hb b (by simp)
  | b :: bs, hb, (i + 1) => by
      simpa using getD_lt_256 bs (fun x hx => hb x (by simp [hx])) i

/-- C8: RTP.frombytes is total (it is a plain function on arbitrary byte
lists) and tolerant: the header fields depend only on the first twelve
bytes with missing trailing header bytes read as zero (buf.getD i 0),
sequence/timestamp/SSRC are the unsigned big-endian 16/32/32-bit values
of bytes 2..11, CSRC-count, padding, extension are the CC/P/X bit
fields of byte 0, payloadType the low 7 bits of byte 1, version is
determined (mod 4) by the top two bits of byte 0 and marker (mod 2) by
the top bit of byte 1, and the payload is exactly the bytes from offset
12 onward. -/
theorem cl8_frombytes_total_tolerant (buf : List Nat) (hb : ∀ b ∈ buf, b < 256) :
    (RTP.frombytes buf).payload = buf.drop 12
    ∧ (RTP.frombytes buf).seq = 256 * (buf.getD 2 0 : Int) + (buf.getD 3 0 : Int)
    ∧ (RTP.frombytes buf).TS =
        16777216 * (buf.getD 4 0 : Int) + 65536 * (buf.getD 5 0 : Int)
          + 256 * (buf.getD 6 0 : Int) + (buf.getD 7 0 : Int)
    ∧ (RTP.frombytes buf).SSRC =
        16777216 * (buf.getD 8 0 : Int) + 65536 * (buf.getD 9 0 : Int)
          + 256 * (buf.getD 10 0 : Int) + (buf.getD 11 0 : Int)
    ∧ (RTP.frombytes buf).CC = ((buf.getD 0 0 % 16 : Nat) : Int)
    ∧ (RTP.frombytes buf).P = ((buf.getD 0 0 / 32 % 2 : Nat) : Int)
    ∧ (RTP.frombytes buf).X = ((buf.getD 0 0 / 16 % 2 : Nat) : Int)
    ∧ (RTP.frombytes buf).PT = ((buf.getD 1 0 % 128 : Nat) : Int)
    ∧ Int.emod (RTP.frombytes buf).version 4 = ((buf.getD 0 0 / 64 : Nat) : Int)
    ∧ Int.emod (RTP.frombytes buf).M 2 = ((buf.getD 1 0 / 128 : Nat) : Int) := by
  have h0 : buf.getD 0 0 < 256 := getD_lt_256 buf hb 0
  have h1 : buf.getD 1 0 < 256 := getD_lt_256 buf hb 1
  have hCC : ∀ n < 256, Int.emod (toSigned n) 16 = ((n % 16 : Nat) : Int) := by decide
  have hP : ∀ n < 256, Int.emod (Int.fdiv (toSigned n) 32) 2 = ((n / 32 % 2 : Nat) : Int) := by
    decide
  have hX : ∀ n < 256, Int.emod (Int.fdiv (toSigned n) 16) 2 = ((n / 16 % 2 : Nat) : Int) := by
    decide
  have hPT : ∀ n < 256, Int.emod (toSigned n) 128 = ((n % 128 : Nat) : Int) := by decide
  have hV : ∀ n < 256, Int.emod (Int.fdiv (toSigned n) 64) 4 = ((n / 64 : Nat) : Int) := by
    decide
  have hM : ∀ n < 256, Int.emod (Int.fdiv (toSigned n) 128) 2 = ((n / 128 : Nat) : Int) := by
    decide
  refine ⟨rfl, ?_, ?_, ?_, hCC _ h0, hP _ h0, hX _ h0, hPT _ h1, hV _ h0, hM _ h1⟩
  · show ((beVal [buf.getD 2 0, buf.getD 3 0] : Nat) : Int) = _
    simp only [beVal, List.foldl]
    push_cast
    ring
  · show ((beVal [buf.getD 4 0, buf.getD 5 0, buf.getD 6 0, buf.getD 7 0] : Nat) : Int) = _
    simp only [beVal, List.foldl]
    push_cast
    ring
  · show ((beVal [buf.getD 8 0, buf.getD 9 0, buf.getD 10 0, buf.getD 11 0] : Nat) : Int) = _
    simp only [beVal, List.foldl]
    push_cast
    ring

/-- C8 witness: the theorem applied to a concrete 3-byte datagram
(shorter than a full header). -/
theorem cl8_frombytes_total_tolerant_witness :
    (RTP.frombytes [129, 200, 7]).payload = [].drop 12
    ∧ (RTP.frombytes [129, 200, 7]).seq = 256 * 7 + 0 := by
  have h := cl8_frombytes_total_tolerant [129, 200, 7] (by decide)
  exact ⟨by decide, by simpa using h.2.1⟩

/-! ## Payload streams (class RTPStream, Media.py lines 181-242) -/

/-- Python whitespace recognized by strip / split on byte strings. -/
def isPySpace (c : Char) : Bool :=
  c = ' ' || c = '\t' || c = '\n' || c = '\r' || c = '\x0b' || c = '\x0c'

/-- Decimal value of a list of digit characters. -/
def digitsVal (l : List Char) : Nat :=
  l.foldl (fun a c => 10 * a + (c.toNat - 48)) 0

/-- Python int() applied to a string: surrounding whitespace is
stripped, an optional sign is allowed, and the rest must be a nonempty
run of decimal digits, else ValueError (modelled as none).  Underscore
digit separators are not modelled (never present in this repository). -/
def pyIntParse (s : String) : Option Int :=
  let l := (s.data.dropWhile isPySpace).reverse.dropWhile isPySpace |>.reverse
  match l with
  | [] => none
  | c :: rest =>
    if c = '-' then
      if rest ≠ [] ∧ rest.all Char.isDigit then some (-(digitsVal rest : Int)) else none
    else if c = '+' then
      if rest ≠ [] ∧ rest.all Char.isDigit then some ((digitsVal rest : Int)) else none
    else if l.all Char.isDigit then some ((digitsVal l : Int)) else none

/-- Exact-rational model of a Python float: numerator over a positive
denominator, not necessarily reduced.  IEEE-754 rounding is not
modelled; for every float computation this repository performs
(0.020 as a period and sample counts such as int(8000 * 0.02) = 160 or
int(44100 * 0.02) = 882) the exact-rational result coincides with the
Python float result. -/
structure PyFloat where
  num : Int
  den : Nat
deriving DecidableEq, Repr

/-- Python int() applied to a number: truncation toward zero. -/
def pyTruncF (p : PyFloat) : Int :=
  Int.tdiv p.num (p.den : Int)

/-- Multiplication of a Python int by a float (rate * period). -/
def pyMulIntFloat (n : Int) (p : PyFloat) : PyFloat :=
  ⟨n * p.num, p.den⟩

/-- The default period 0.020 of RTPStream.__init__ (Media.py line 216). -/
def defaultPeriod : PyFloat := ⟨1, 50⟩

/-- Python str.split with an explicit one-character separator:
accumulate the current piece until the separator, keeping empty
pieces. -/
def splitCharAux (sep : Char) : List Char → List Char → List (List Char)
  | acc, [] => [acc.reverse]
  | acc, c :: rest =>
    if c = sep then acc.reverse :: splitCharAux sep [] rest
    else splitCharAux sep (c :: acc) rest

/-- Python s.split(sep) for a one-character separator sep. -/
def pySplitChar (sep : Char) (s : String) : List String :=
  (splitCharAux sep [] s.data).map (fun l => String.mk l)

/-- The module-level static codec table RTPStream.defaultcodecs
(Media.py lines 182-199): payload type to (codec name, format). -/
def defaultcodecs (pt : Int) : Option (String × Option String) :=
  match pt with
  | 0 => some ("PCMU/8000", none)
  | 3 => some ("GSM/8000", none)
  | 4 => some ("G723/8000", none)
  | 5 => some ("DVI4/8000", none)
  | 6 => some ("DVI4/16000", none)
  | 7 => some ("LPC/8000", none)
  | 8 => some ("PCMA/8000", none)
  | 9 => some ("G722/8000", none)
  | 10 => some ("L16/44100/2", none)
  | 11 => some ("L16/44100/1", none)
  | 12 => some ("QCELP/8000", none)
  | 13 => some ("CN/8000", none)
  | 14 => some ("MPA/90000", none)
  | 15 => some ("G728/8000", none)
  | 16 => some ("DVI4/11025", none)
  | 17 => some ("DVI4/22050", none)
  | 18 => some ("G729/8000", none)
  | _ => none

/-- Sample-count derivation int(int(codecname.split(sep)[1]) * period)
(Media.py lines 222-223 and 322-323): the trailing sampling-rate token
of the codec name times the period, truncated.  Any failure inside the
try block (codec name None, no second slash-separated token, token not
an integer literal) yields none. -/
def deriveNumsamples (c1 : Option String) (period : PyFloat) : Option Int :=
  match c1 with
  | none => none
  | some name =>
    match (pySplitChar '/' name).get? 1 with
    | none => none
    | some tok => (pyIntParse tok).map (fun rate => pyTruncF (pyMulIntFloat rate period))

/-- Stream state owned by an RTPStream object after construction
(Media.py lines 201-226): payload type, payload length, the codec
triple [PT, name, format], and the sequence / timing cursor. -/
structure RTPStreamState where
  PT : Int
  rtplen : Nat
  codecPT : Int
  codec1 : Option String
  codec2 : Option String
  seq : Int
  period : PyFloat
  SSRC : Int
  TS : Int
  numsamples : Int
  eof : Bool
deriving DecidableEq, Repr

/-- RTPStream.__init__ (Media.py lines 201-226).  The optional
arguments model the recognized **params overrides in pop order
(codecname, codecformat, seq, period, SSRC, TS, numsamples); randSeq,
randSSRC and randTS are the random.randint draws used when the
corresponding override is absent.  The codec triple starts from the
static table entry for PT (or [PT, None, None]); a missing codec name
raises, and a missing numsamples with no derivable sampling rate
raises. -/
def rtpstreamInit (PT : Int) (rtplen : Nat)
    (codecname codecformat : Option String)
    (seqP : Option Int) (periodP : Option PyFloat) (SSRCP TSP numsamplesP : Option Int)
    (randSeq randSSRC randTS : Int) : Except String RTPStreamState := do
  let base := match defaultcodecs PT with
    | some (n, f) => (some n, f)
    | none => (none, none)
  let c1 := match codecname with | some n => some n | none => base.1
  let c2 := match codecformat with | some f => some f | none => base.2
  match c1 with
  | none => Except.error "missing codecname"
  | some cn => do
    let ns ← match numsamplesP with
      | some n => Except.ok n
      | none =>
        match deriveNumsamples (some cn) (periodP.getD defaultPeriod) with
        | some n => Except.ok n
        | none =>
          Except.error "missing timestamp or numsamples or sampling rate in codec name"
    Except.ok { PT := PT, rtplen := rtplen, codecPT := PT, codec1 := some cn, codec2 := c2,
                seq := seqP.getD randSeq, period := periodP.getD defaultPeriod,
                SSRC := SSRCP.getD randSSRC, TS := TSP.getD randTS,
                numsamples := ns, eof := true }

/-- The default RTPStream.nextparams advance (Media.py lines 231-233),
exactly as written in the source:
TS = (TS + numsamples) % 0xffffffff and seq = (seq + 1) % 0xffff --
note the moduli are 0xffffffff = 2^32 - 1 and 0xffff = 2^16 - 1. -/
def nextparamsDefault (s : RTPStreamState) : RTPStreamState :=
  { s with TS := (s.TS + s.numsamples) % 4294967295,
           seq := (s.seq + 1) % 65535 }

/-- RTPRandomStream.nextpayload (Media.py lines 335-336): rtplen draws
of random.choice(range(256)); the draws are supplied by the oracle
rand, one value per position. -/
def nextpayloadRandom (rand : Nat → Nat) (rtplen : Nat) : List Nat :=
  (List.range rtplen).map rand

/-- RTPStream.nextpacket (Media.py lines 238-242) as executed by an
RTPRandomStream: build an RTP packet from the current cursor (the RTP
constructor defaults give version 2 and zero P/X/CC/M), then advance
the cursor with the default nextparams, and return the packet together
with the period. -/
def nextpacketRandom (rand : Nat → Nat) (s : RTPStreamState) : RTP × PyFloat × RTPStreamState :=
  let pkt : RTP := { payload := nextpayloadRandom rand s.rtplen, PT := s.PT, seq := s.seq,
                     TS := s.TS, SSRC := s.SSRC, version := 2, P := 0, X := 0, CC := 0, M := 0 }
  let s2 := nextparamsDefault s
  (pkt, s2.period, s2)

/-- RTPRandomStream.__init__ (Media.py lines 331-333): the plain
RTPStream constructor with no overrides, then eof = False. -/
def rtpRandomInit (PT : Int) (rtplen : Nat) (randSeq randSSRC randTS : Int) :
    Except String RTPStreamState :=
  (rtpstreamInit PT rtplen none none none none none none none randSeq randSSRC randTS).map
    (fun s => { s with eof := false })

/-- The sequence cursor after iterating the default nextparams advance:
it cycles modulo 65535 = 0xffff, the modulus written in the source. -/
theorem nextparamsDefault_iterate_seq (s : RTPStreamState) :
    ∀ n : Nat, ((nextparamsDefault)^[n + 1] s).seq = (s.seq + n + 1) % 65535
  | 0 => by simp [nextparamsDefault]
  | n + 1 => by
      have ih := nextparamsDefault_iterate_seq s n
      rw [Function.iterate_succ_apply']
      show ((nextparamsDefault^[n + 1] s).seq + 1) % 65535
          = (s.seq + (((n : Nat) + 1 : Nat) : Int) + 1) % 65535
      rw [ih]
      push_cast
      omega

/-- The concrete stream state (sequence cursor 0) used to exhibit the
modulus. -/
def stC2 : RTPStreamState :=
  { PT := 0, rtplen := 0, codecPT := 0, codec1 := some "PCMU/8000", codec2 := none,
    seq := 0, period := defaultPeriod, SSRC := 0, TS := 0, numsamples := 160, eof := false }

/-- The concrete stream state (timestamp cursor 2^32 - 2, numsamples 1)
used to exhibit the timestamp modulus. -/
def stC2b : RTPStreamState :=
  { PT := 0, rtplen := 0, codecPT := 0, codec1 := some "PCMU/8000", codec2 := none,
    seq := 0, period := defaultPeriod, SSRC := 0, TS := 4294967294, numsamples := 1, eof := false }

/-- C2: the default nextparams advance is NOT modular with moduli 2^16
and 2^32: the source reduces modulo 0xffff = 65535 and 0xffffffff =
2^32 - 1.  From sequence 0, 65536 advances land on 1, not back on 0;
and from timestamp 2^32 - 2 one advance by numsamples = 1 lands on 0
instead of 2^32 - 1 = (2^32 - 2 + 1) mod 2^32. -/
theorem cl2_moduli_off_by_one_eval :
    ((nextparamsDefault)^[65536] stC2).seq = 1
    ∧ stC2.seq = 0
    ∧ (nextparamsDefault stC2b).TS = 0
    ∧ stC2b.TS = 4294967294 ∧ stC2b.numsamples = 1
    ∧ (stC2b.TS + stC2b.numsamples) % 4294967296 = 4294967295 := by
  refine ⟨?_, rfl, by decide, rfl, rfl, by decide⟩
  show ((nextparamsDefault)^[65535 + 1] stC2).seq = 1
  rw [nextparamsDefault_iterate_seq stC2 65535]
  decide

/-- Number of nextpacket calls applied to a random stream state: the
state after n calls, threading the per-call random oracle rand. -/
def randomStateAfter (rand : Nat → Nat → Nat) (s : RTPStreamState) : Nat → RTPStreamState
  | 0 => s
  | n + 1 => (nextpacketRandom (rand n) (randomStateAfter rand s n)).2.2

/-- The payload produced by the (n+1)-st nextpacket call on a random
stream. -/
def randomPayloadAt (rand : Nat → Nat → Nat) (s : RTPStreamState) (n : Nat) : List Nat :=
  (nextpacketRandom (rand n) (randomStateAfter rand s n)).1.payload

/-- nextpacket calls never change rtplen and never change eof. -/
theorem randomStateAfter_rtplen_eof (rand : Nat → Nat → Nat) (s : RTPStreamState) :
    ∀ n, (randomStateAfter rand s n).rtplen = s.rtplen
      ∧ (randomStateAfter rand s n).eof = s.eof
  | 0 => ⟨rfl, rfl⟩
  | n + 1 => by
      have ih := randomStateAfter_rtplen_eof rand s n
      simp [randomStateAfter, nextpacketRandom, nextparamsDefault, ih.1, ih.2]

/-- C9: for the stream built by RTPRandomStream(PT = 10, rtplen = 40)
(whatever the three random.randint draws r1, r2, r3 were), every one of
20 successive nextpacket invocations returns a payload of exactly 40
bytes, whatever bytes the random oracle yields, and eof remains false
after every invocation. -/
theorem cl9_random_source (r1 r2 r3 : Int) (rand : Nat → Nat → Nat) (s : RTPStreamState)
    (hinit : rtpRandomInit 10 40 r1 r2 r3 = Except.ok s) (n : Nat) (hn : n < 20) :
    (randomPayloadAt rand s n).length = 40
    ∧ (randomStateAfter rand s (n + 1)).eof = false := by
  have hval : rtpRandomInit 10 40 r1 r2 r3 = Except.ok
      { PT := 10, rtplen := 40, codecPT := 10, codec1 := some "L16/44100/2",
        codec2 := none, seq := r1, period := defaultPeriod, SSRC := r2, TS := r3,
        numsamples := 882, eof := false } := rfl
  rw [hval] at hinit
  have hs := (Except.ok.injEq _ _).mp hinit
  have hlen : (randomPayloadAt rand s n).length = (randomStateAfter rand s n).rtplen := by
    simp [randomPayloadAt, nextpacketRandom, nextpayloadRandom]
  constructor
  · rw [hlen, (randomStateAfter_rtplen_eof rand s n).1, ← hs]
  · rw [(randomStateAfter_rtplen_eof rand s (n + 1)).2, ← hs]

/-- The concrete random stream state produced by
RTPRandomStream(PT = 10, rtplen = 40) when all random draws are 0. -/
def stC9 : RTPStreamState :=
  { PT := 10, rtplen := 40, codecPT := 10, codec1 := some "L16/44100/2", codec2 := none,
    seq := 0, period := defaultPeriod, SSRC := 0, TS := 0, numsamples := 882, eof := false }

/-- C9 witness: the 20th invocation on the concrete stream, with the
all-zero random oracle. -/
theorem cl9_random_source_witness :
    (randomPayloadAt (fun _ _ => 0) stC9 19).length = 40
    ∧ (randomStateAfter (fun _ _ => 0) stC9 20).eof = false :=
  cl9_random_source 0 0 0 (fun _ _ => 0) stC9 rfl 19 (by decide)

/-! ## The Media controller (class Media, Media.py lines 16-86)

The controller state visible to the claims: the transmitting flag, the
remote address learned from the SDP answer, and the messages sent to
the worker over the pipe.  SDP text is a byte string (the source
matches lines against the byte literals b"c=" / b"m="), modelled as a
list of byte values. -/

/-- bytes.splitlines: split on LF, CR or CRLF; a terminal line break
produces no trailing empty line.  The first argument accumulates the
current line in reverse. -/
def bytesSplitlinesAux : List Nat → List Nat → List (List Nat)
  | acc, [] => if acc = [] then [] else [acc.reverse]
  | acc, 13 :: 10 :: rest => acc.reverse :: bytesSplitlinesAux [] rest
  | acc, 13 :: rest => acc.reverse :: bytesSplitlinesAux [] rest
  | acc, 10 :: rest => acc.reverse :: bytesSplitlinesAux [] rest
  | acc, b :: rest => bytesSplitlinesAux (b :: acc) rest

/-- bytes.splitlines from the start of a byte string. -/
def bytesSplitlines (l : List Nat) : List (List Nat) :=
  bytesSplitlinesAux [] l

/-- ASCII whitespace for bytes.split() / bytes.strip(). -/
def isSpaceByte (b : Nat) : Bool :=
  b = 32 || b = 9 || b = 10 || b = 13 || b = 11 || b = 12

/-- bytes.split() with no separator: split on runs of ASCII whitespace,
discarding empty pieces. -/
def bytesSplitWSAux : List Nat → List Nat → List (List Nat)
  | acc, [] => if acc = [] then [] else [acc.reverse]
  | acc, b :: rest =>
    if isSpaceByte b then
      if acc = [] then bytesSplitWSAux [] rest
      else acc.reverse :: bytesSplitWSAux [] rest
    else bytesSplitWSAux (b :: acc) rest

/-- bytes.split() from the start of a byte string. -/
def bytesSplitWS (l : List Nat) : List (List Nat) :=
  bytesSplitWSAux [] l

/-- A byte string rendered as a Lean string, byte for byte (exact for
the ASCII data this repository handles). -/
def asciiStr (l : List Nat) : String :=
  String.mk (l.map Char.ofNat)

/-- The byte string of an ASCII Lean string. -/
def strBytes (s : String) : List Nat :=
  s.data.map Char.toNat

/-- Python int() applied to a byte string. -/
def pyIntBytes (l : List Nat) : Option Int :=
  pyIntParse (asciiStr l)

/-- A message sent from the controller to the worker over the pipe:
the remote address forwarded by Media.transmit (Media.py line 78). -/
inductive CtrlMsg where
  | remoteAddr (ip : List Nat) (port : Int)
deriving DecidableEq, Repr

/-- Controller-side state of a Media object: the transmitting flag
(Media.py line 37), the remote address (lines 20-21), and the messages
sent down the pipe. -/
structure MediaState where
  transmitting : Bool
  remoteip : Option (List Nat)
  remoteport : Option Int
  sent : List CtrlMsg
deriving DecidableEq, Repr

/-- The line scan of Media.setparticipantoffer (Media.py lines 67-71):
for each line, a b"c=" prefix stores the third whitespace token as the
remote IP (line.split()[2] -- IndexError if there are fewer than three
tokens), and a b"m=" prefix stores int(line.split()[1]) as the remote
port (IndexError if there is no second token, ValueError if it is not
an integer literal).  There is no try/except in the source: a raised
exception aborts the scan, leaving the assignments made so far; the
second component of the result reports it. -/
def scanOfferLines : List (List Nat) → MediaState → MediaState × Option String
  | [], s => (s, none)
  | line :: rest, s =>
    let cRes : Except String MediaState :=
      if List.isPrefixOf [99, 61] line then
        match (bytesSplitWS line)[2]? with
        | none => Except.error "IndexError: list index out of range"
        | some tok => Except.ok { s with remoteip := some tok }
      else Except.ok s
    match cRes with
    | Except.error e => (s, some e)
    | Except.ok s1 =>
      if List.isPrefixOf [109, 61] line then
        match (bytesSplitWS line)[1]? with
        | none => (s1, some "IndexError: list index out of range")
        | some tok =>
          match pyIntBytes tok with
          | none => (s1, some "ValueError: invalid literal for int with base 10")
          | some n => scanOfferLines rest { s1 with remoteport := some n }
      else scanOfferLines rest s1

/-- Media.setparticipantoffer (Media.py lines 64-71): an immediate
return when already transmitting, otherwise the line scan above over
sdp.splitlines(). -/
def setparticipantoffer (sdp : List Nat) (s : MediaState) : MediaState × Option String :=
  if s.transmitting then (s, none)
  else scanOfferLines (bytesSplitlines sdp) s

/-- Media.transmit (Media.py lines 73-80): an immediate return when
already transmitting; otherwise the transmitting flag is set FIRST, and
only then, if both remote ip and port are known, the remote address is
sent to the worker -- when either is missing, only a warning is logged
and nothing else happens. -/
def transmit (s : MediaState) : MediaState :=
  if s.transmitting then s
  else
    let s1 := { s with transmitting := true }
    match s.remoteip, s.remoteport with
    | some ip, some port => { s1 with sent := s1.sent ++ [CtrlMsg.remoteAddr ip port] }
    | _, _ => s1

/-- The fresh controller state right after construction: not
transmitting, no remote address, nothing sent. -/
def m0 : MediaState :=
  { transmitting := false, remoteip := none, remoteport := none, sent := [] }

/-- C5 counterexample: setparticipantoffer is NOT total on malformed
input.  On the single-line SDP b"c=x" (bytes 99 61 120) the c= line has
only one whitespace token, so line.split()[2] raises IndexError -- the
line is not silently ignored. -/
theorem cl5_counterexample_cline_raises :
    (setparticipantoffer [99, 61, 120] m0).2
      = some "IndexError: list index out of range" := by
  decide

/-- A line is harmless for the scan: if it is a c= line it has at least
three whitespace tokens, and if it is an m= line its second whitespace
token exists and parses as an integer. -/
def offerLineOK (line : List Nat) : Bool :=
  (!(List.isPrefixOf [99, 61] line) || decide (3 ≤ (bytesSplitWS line).length))
  && (!(List.isPrefixOf [109, 61] line) ||
      (match (bytesSplitWS line)[1]? with
       | none => false
       | some tok => (pyIntBytes tok).isSome))

/-- The remote IP after scanning one line: the third whitespace token
of a c= line when it exists, otherwise unchanged. -/
def cLineIP (acc : Option (List Nat)) (line : List Nat) : Option (List Nat) :=
  if List.isPrefixOf [99, 61] line then
    match (bytesSplitWS line)[2]? with
    | some t => some t
    | none => acc
  else acc

/-- The remote port after scanning one line: the integer value of the
second whitespace token of an m= line when it exists, otherwise
unchanged. -/
def mLinePort (acc : Option Int) (line : List Nat) : Option Int :=
  if List.isPrefixOf [109, 61] line then
    match (bytesSplitWS line)[1]? with
    | none => acc
    | some tok =>
      match pyIntBytes tok with
      | some n => some n
      | none => acc
  else acc

/-- On harmless lines the scan never raises, the remote IP is the fold
of the c= extractions, the remote port the fold of the m= extractions,
and nothing else changes. -/
theorem scanOfferLines_wellformed :
    ∀ (lines : List (List Nat)) (s : MediaState),
      (∀ l ∈ lines, offerLineOK l = true) →
      scanOfferLines lines s
      = ({ s with remoteip := lines.foldl cLineIP s.remoteip,
                  remoteport := lines.foldl mLinePort s.remoteport }, none)
  | [], s, _ => by simp [scanOfferLines]
  | line :: rest, s, h => by
      have hline : offerLineOK line = true := h line (by simp)
      have hrest : ∀ l ∈ rest, offerLineOK l = true := fun l hl => h l (by simp [hl])
      simp only [offerLineOK, Bool.and_eq_true, Bool.or_eq_true, Bool.not_eq_true',
        decide_eq_true_eq] at hline
      by_cases hc : List.isPrefixOf [99, 61] line
      · obtain ⟨t, hc2⟩ : ∃ t, (bytesSplitWS line)[2]? = some t := by
          rcases hline.1 with h1 | h1
          · rw [hc] at h1; exact Bool.noConfusion h1
          · rcases h2 : (bytesSplitWS line)[2]? with _ | t
            · rw [List.getElem?_eq_none_iff] at h2; omega
            · exact ⟨t, rfl⟩
        by_cases hm : List.isPrefixOf [109, 61] line
        · obtain ⟨tok, hm1, n, hn⟩ :
              ∃ tok, (bytesSplitWS line)[1]? = some tok ∧ ∃ n, pyIntBytes tok = some n := by
            rcases hline.2 with h2 | h2
            · rw [hm] at h2; exact Bool.noConfusion h2
            · rcases h1 : (bytesSplitWS line)[1]? with _ | tok
              · rw [h1] at h2; exact Bool.noConfusion h2
              · rw [h1] at h2
                have h4 : (pyIntBytes tok).isSome = true := h2
                obtain ⟨n, hn⟩ := Option.isSome_iff_exists.mp h4
                exact ⟨tok, rfl, n, hn⟩
          rw [show scanOfferLines (line :: rest) s
              = scanOfferLines rest { s with remoteip := some t, remoteport := some n } from by
            simp [scanOfferLines, hc, hc2, hm, hm1, hn]]
          rw [scanOfferLines_wellformed rest _ hrest]
          simp [cLineIP, mLinePort, hc, hc2, hm, hm1, hn]
        · rw [show scanOfferLines (line :: rest) s
              = scanOfferLines rest { s with remoteip := some t } from by
            simp [scanOfferLines, hc, hc2, hm]]
          rw [scanOfferLines_wellformed rest _ hrest]
          simp [cLineIP, mLinePort, hc, hc2, hm]
      · by_cases hm : List.isPrefixOf [109, 61] line
        · obtain ⟨tok, hm1, n, hn⟩ :
              ∃ tok, (bytesSplitWS line)[1]? = some tok ∧ ∃ n, pyIntBytes tok = some n := by
            rcases hline.2 with h2 | h2
            · rw [hm] at h2; exact Bool.noConfusion h2
            · rcases h1 : (bytesSplitWS line)[1]? with _ | tok
              · rw [h1] at h2; exact Bool.noConfusion h2
              · rw [h1] at h2
                have h4 : (pyIntBytes tok).isSome = true := h2
                obtain ⟨n, hn⟩ := Option.isSome_iff_exists.mp h4
                exact ⟨tok, rfl, n, hn⟩
          rw [show scanOfferLines (line :: rest) s
              = scanOfferLines rest { s with remoteport := some n } from by
            simp [scanOfferLines, hc, hm, hm1, hn]]
          rw [scanOfferLines_wellformed rest _ hrest]
          simp [cLineIP, mLinePort, hc, hm, hm1, hn]
        · rw [show scanOfferLines (line :: rest) s = scanOfferLines rest s from by
            simp [scanOfferLines, hc, hm]]
          rw [scanOfferLines_wellformed rest _ hrest]
          simp [cLineIP, mLinePort, hc, hm]

/-- C5 (amended): when not yet transmitting, on an SDP answer whose c=
lines all have a third whitespace token and whose m= lines all have an
integer second token, setparticipantoffer raises nothing, sets the
remote IP from the c= lines and the remote port from the m= lines
(later lines overriding earlier ones), ignores every other line, and
touches nothing else; but on a malformed c= or m= line it raises (see
the counterexample) instead of ignoring the line. -/
theorem cl5_offer_scan (sdp : List Nat) (s : MediaState) (ht : s.transmitting = false)
    (hw : ∀ l ∈ bytesSplitlines sdp, offerLineOK l = true) :
    (setparticipantoffer sdp s).2 = none
    ∧ (setparticipantoffer sdp s).1.remoteip
        = (bytesSplitlines sdp).foldl cLineIP s.remoteip
    ∧ (setparticipantoffer sdp s).1.remoteport
        = (bytesSplitlines sdp).foldl mLinePort s.remoteport
    ∧ (setparticipantoffer sdp s).1.transmitting = false
    ∧ (setparticipantoffer sdp s).1.sent = s.sent := by
  have hs := scanOfferLines_wellformed (bytesSplitlines sdp) s hw
  simp [setparticipantoffer, ht, hs]

/-- The two-line SDP answer used as the C5 witness input. -/
def sdpC5 : List Nat :=
  strBytes "c=IN IP4 10.0.0.1\r\nm=audio 4000 RTP/AVP 0\r\n"

/-- C5 witness: the amended scan theorem applied to a concrete
well-formed SDP answer on the fresh state. -/
theorem cl5_offer_scan_witness :
    (setparticipantoffer sdpC5 m0).2 = none
    ∧ (setparticipantoffer sdpC5 m0).1.remoteip
        = (bytesSplitlines sdpC5).foldl cLineIP m0.remoteip
    ∧ (setparticipantoffer sdpC5 m0).1.remoteport
        = (bytesSplitlines sdpC5).foldl mLinePort m0.remoteport
    ∧ (setparticipantoffer sdpC5 m0).1.transmitting = false
    ∧ (setparticipantoffer sdpC5 m0).1.sent = m0.sent :=
  cl5_offer_scan sdpC5 m0 rfl (by decide)

/-- C7: transmit is idempotent -- a second call returns at once, so
state and pipe traffic equal those after a single call; and once the
transmitting flag is set, setparticipantoffer returns immediately,
leaving the whole state (remote IP and port included) unchanged and
raising nothing. -/
theorem cl7_transmit_idempotent_offer_guard (s : MediaState) (sdp : List Nat) :
    transmit (transmit s) = transmit s
    ∧ (s.transmitting = true → setparticipantoffer sdp s = (s, none)) := by
  constructor
  · by_cases h : s.transmitting
    · simp [transmit, h]
    · rcases hip : s.remoteip with _ | ip
      · simp [transmit, h, hip]
      · rcases hp : s.remoteport with _ | port
        · simp [transmit, h, hip, hp]
        · simp [transmit, h, hip, hp]
  · intro h
    simp [setparticipantoffer, h]

/-- C7 witness: the theorem at the fresh state made transmitting, with
a concrete SDP text. -/
theorem cl7_transmit_idempotent_offer_guard_witness :
    transmit (transmit { m0 with transmitting := true })
      = transmit { m0 with transmitting := true }
    ∧ ({ m0 with transmitting := true } : MediaState).transmitting = true
    ∧ setparticipantoffer sdpC5 { m0 with transmitting := true }
        = ({ m0 with transmitting := true }, none) := by
  have h := cl7_transmit_idempotent_offer_guard { m0 with transmitting := true } sdpC5
  exact ⟨h.1, rfl, h.2 rfl⟩

/-- A controller call that can run after transmit: feeding an SDP
answer or calling transmit again. -/
inductive MediaOp where
  | offer (sdp : List Nat)
  | xmit
deriving Repr

/-- Controller-state effect of one call (the state component of
setparticipantoffer, or transmit). -/
def applyOp (s : MediaState) : MediaOp → MediaState
  | MediaOp.offer sdp => (setparticipantoffer sdp s).1
  | MediaOp.xmit => transmit s

/-- Controller-state effect of a call sequence. -/
def applyOps (s : MediaState) (ops : List MediaOp) : MediaState :=
  ops.foldl applyOp s

/-- Once the transmitting flag is set, every later controller call is a
no-op. -/
theorem applyOps_transmitting :
    ∀ (ops : List MediaOp) (s : MediaState), s.transmitting = true → applyOps s ops = s
  | [], s, _ => rfl
  | op :: ops, s, h => by
      have hop : applyOp s op = s := by
        cases op with
        | offer sdp => simp [applyOp, setparticipantoffer, h]
        | xmit => simp [applyOp, transmit, h]
      show applyOps (applyOp s op) ops = s
      rw [hop]
      exact applyOps_transmitting ops s h

/-- C10: calling transmit while the remote address is still (partly)
unset sets the transmitting flag but sends nothing to the worker and
leaves the remote address as it was; and because the flag was set
before the check, EVERY later sequence of setparticipantoffer /
transmit calls is a complete no-op -- the remote address can never be
set any more and the endpoint stays receive-only. -/
theorem cl10_premature_transmit_locks (s : MediaState)
    (h : s.remoteip = none ∨ s.remoteport = none) :
    (transmit s).transmitting = true
    ∧ (transmit s).sent = s.sent
    ∧ (transmit s).remoteip = s.remoteip
    ∧ (transmit s).remoteport = s.remoteport
    ∧ ∀ ops : List MediaOp, applyOps (transmit s) ops = transmit s := by
  have hnot : transmit s = { s with transmitting := true } := by
    by_cases htr : s.transmitting
    · have : s = { s with transmitting := true } := by
        cases s; simp_all
      simp [transmit, htr, ← this]
    · rcases h with h | h
      · simp [transmit, htr, h]
      · rcases hip : s.remoteip with _ | ip
        · simp [transmit, htr, hip]
        · simp [transmit, htr, hip, h]
  refine ⟨by rw [hnot], by rw [hnot], by rw [hnot], by rw [hnot], ?_⟩
  intro ops
  exact applyOps_transmitting ops (transmit s) (by rw [hnot])

/-- C10 witness: transmit on the fresh state (remote address unset),
followed by an offer and another transmit, changes nothing. -/
theorem cl10_premature_transmit_locks_witness :
    m0.remoteip = none
    ∧ (transmit m0).transmitting = true
    ∧ (transmit m0).sent = m0.sent
    ∧ applyOps (transmit m0) [MediaOp.offer sdpC5, MediaOp.xmit] = transmit m0 := by
  have h := cl10_premature_transmit_locks m0 (Or.inl rfl)
  exact ⟨rfl, h.1, h.2.1, h.2.2.2.2 [MediaOp.offer sdpC5, MediaOp.xmit]⟩

/-! ## The worker RUNNING loop (Media.run, Media.py lines 112-146)

Only the pacing discipline of the send loop is modelled: times are
exact rationals, the multiplexed wait is an oracle that tells which
objects came back ready (the empty list is a timeout), and inbound
datagrams are drained and discarded exactly as in the source. -/

/-- An object multiprocessing.connection.wait can report ready: the
socket with one inbound datagram, or the control pipe. -/
inductive WaitObj where
  | sock (datagram : List Nat)
  | ctrl
deriving DecidableEq, Repr

/-- Loop state of the worker in RUNNING: the accumulative wake
deadline, the running flag, how many packets were sent, and the sleep
last handed to the multiplexed wait. -/
structure WorkerState where
  wake : ℚ
  running : Bool
  sentCount : Nat
  lastSleep : Option ℚ
deriving DecidableEq, Repr

/-- Handling of one ready object inside the for loop (Media.py lines
127-135): a readable socket is drained (the datagram is decoded only
for logging and discarded; the timer is untouched); a readable control
pipe consumes the stop message and clears the running flag. -/
def drainStep (acc : WorkerState) (obj : WaitObj) : WorkerState :=
  match obj with
  | WaitObj.sock _ => acc
  | WaitObj.ctrl => { acc with running := false }

/-- The timeout branch of one iteration (Media.py lines 136-142): when
the wait reported nothing ready and the source is not at end of
stream, pull the next packet, send it, and advance the wake deadline
by exactly its duration. -/
def workerSend (eofAt : Nat → Bool) (dur : Nat → ℚ) (s2 : WorkerState) : WorkerState :=
  if eofAt s2.sentCount then s2
  else { s2 with sentCount := s2.sentCount + 1, wake := s2.wake + dur s2.sentCount }

/-- One iteration of the while loop (Media.py lines 116-142).  eofAt n
says whether the source reports eof once n packets have been sent;
dur n is the duration returned with packet n; now is time.monotonic()
at the top of the iteration; ready is what the multiplexed wait
returned.  The sleep is recomputed as max(0, wake - now) and passed to
the wait; when the wait returned nothing (deadline fired), the send
branch runs.  The wake deadline never reads now. -/
def workerStep (eofAt : Nat → Bool) (dur : Nat → ℚ)
    (s : WorkerState) (now : ℚ) (ready : List WaitObj) : WorkerState :=
  if s.running then
    let sleep : ℚ := if s.wake ≤ now then 0 else s.wake - now
    let s2 := ready.foldl drainStep { s with lastSleep := some sleep }
    if ready.isEmpty then workerSend eofAt dur s2 else s2
  else s

/-- The RUNNING loop over a whole schedule of iterations, each with its
own current time and wait outcome. -/
def workerRun (eofAt : Nat → Bool) (dur : Nat → ℚ)
    (s : WorkerState) (its : List (ℚ × List WaitObj)) : WorkerState :=
  its.foldl (fun acc it => workerStep eofAt dur acc it.1 it.2) s

/-- Draining ready objects touches neither the wake deadline nor the
send counter. -/
theorem drainFold_wake_sent :
    ∀ (ready : List WaitObj) (s : WorkerState),
      (ready.foldl drainStep s).wake = s.wake
      ∧ (ready.foldl drainStep s).sentCount = s.sentCount
  | [], s => ⟨rfl, rfl⟩
  | obj :: rest, s => by
      cases obj with
      | sock d =>
          simpa [drainStep] using drainFold_wake_sent rest s
      | ctrl =>
          simpa [drainStep] using drainFold_wake_sent rest { s with running := false }

/-- One loop iteration preserves the accumulative-schedule invariant:
the wake deadline is the initial wake time plus the durations of the
packets sent so far. -/
theorem workerStep_wake_invariant (eofAt : Nat → Bool) (dur : Nat → ℚ) (t0 : ℚ)
    (s : WorkerState) (now : ℚ) (ready : List WaitObj)
    (hs : s.wake = t0 + ∑ i in Finset.range s.sentCount, dur i) :
    (workerStep eofAt dur s now ready).wake
      = t0 + ∑ i in Finset.range (workerStep eofAt dur s now ready).sentCount, dur i := by
  unfold workerStep
  by_cases hr : s.running
  · rw [if_pos hr]
    dsimp only
    generalize (if s.wake ≤ now then (0 : ℚ) else s.wake - now) = sl
    have hd := drainFold_wake_sent ready { s with lastSleep := some sl }
    have hd1 : (ready.foldl drainStep { s with lastSleep := some sl }).wake = s.wake := hd.1
    have hd2 : (ready.foldl drainStep { s with lastSleep := some sl }).sentCount
        = s.sentCount := hd.2
    by_cases he : ready.isEmpty
    · rw [if_pos he]
      unfold workerSend
      by_cases hf : eofAt (ready.foldl drainStep { s with lastSleep := some sl }).sentCount
      · rw [if_pos hf, hd1, hd2]
        exact hs
      · rw [if_neg hf]
        dsimp only
        rw [hd1, hd2, Finset.sum_range_succ, hs]
        ring
    · rw [if_neg he, hd1, hd2]
      exact hs
  · rw [if_neg hr]
    exact hs

/-- The accumulative-schedule invariant carried over a whole run. -/
theorem workerRun_wake_invariant (eofAt : Nat → Bool) (dur : Nat → ℚ) (t0 : ℚ) :
    ∀ (its : List (ℚ × List WaitObj)) (s : WorkerState),
      s.wake = t0 + ∑ i in Finset.range s.sentCount, dur i →
      (workerRun eofAt dur s its).wake
        = t0 + ∑ i in Finset.range (workerRun eofAt dur s its).sentCount, dur i
  | [], _, hs => hs
  | it :: its, s, hs =>
      workerRun_wake_invariant eofAt dur t0 its (workerStep eofAt dur s it.1 it.2)
        (workerStep_wake_invariant eofAt dur t0 s it.1 it.2 hs)

/-- C3: starting RUNNING with the wake deadline at t0 and no packet
sent, after ANY schedule of iterations (whatever the per-iteration
processing delays now and whatever mix of socket drains, stop messages
and timeouts the wait reports), the wake deadline equals t0 plus the
sum of the durations of the packets sent -- it is never reset from the
current time; in particular with a fixed per-packet duration d, after
the n-th send the deadline is t0 + n * d. -/
theorem cl3_accumulative_pacing (eofAt : Nat → Bool) (dur : Nat → ℚ) (t0 : ℚ)
    (its : List (ℚ × List WaitObj)) :
    (workerRun eofAt dur { wake := t0, running := true, sentCount := 0, lastSleep := none }
        its).wake
      = t0 + ∑ i in Finset.range
          (workerRun eofAt dur
            { wake := t0, running := true, sentCount := 0, lastSleep := none } its).sentCount,
          dur i
    ∧ ∀ d : ℚ, (∀ i, dur i = d) →
        (workerRun eofAt dur
            { wake := t0, running := true, sentCount := 0, lastSleep := none } its).wake
          = t0 + ((workerRun eofAt dur
              { wake := t0, running := true, sentCount := 0, lastSleep := none }
              its).sentCount : ℚ) * d := by
  have h := workerRun_wake_invariant eofAt dur t0 its
    { wake := t0, running := true, sentCount := 0, lastSleep := none } (by simp)
  refine ⟨h, fun d hd => ?_⟩
  rw [h]
  congr 1
  rw [Finset.sum_congr rfl (fun i _ => hd i), Finset.sum_const, Finset.card_range,
    nsmul_eq_mul]

/-- C3 witness: a concrete three-iteration schedule (timeout, socket
drain with a late wakeup, timeout) with fixed duration 1. -/
theorem cl3_accumulative_pacing_witness :
    (workerRun (fun _ => false) (fun _ => 1)
        { wake := 0, running := true, sentCount := 0, lastSleep := none }
        [(0, []), (5, [WaitObj.sock []]), (1, [])]).wake
      = 0 + ((workerRun (fun _ => false) (fun _ => 1)
          { wake := 0, running := true, sentCount := 0, lastSleep := none }
          [(0, []), (5, [WaitObj.sock []]), (1, [])]).sentCount : ℚ) * 1 :=
  (cl3_accumulative_pacing (fun _ => false) (fun _ => 1) 0
    [(0, []), (5, [WaitObj.sock []]), (1, [])]).2 1 (fun _ => rfl)

/-! ## File replay streams (class RTPFile, Media.py lines 244-328) -/

/-- A Python value produced by ast.literal_eval on a directive value:
the literal kinds the replay format uses (ints incl. hex, floats as
exact rationals, booleans, quoted strings).  Container literals never
occur in this repository and are not modelled. -/
inductive PyVal where
  | int (n : Int)
  | float (q : PyFloat)
  | str (s : String)
  | bool (b : Bool)
deriving DecidableEq, Repr

/-- Value of a hexadecimal digit character. -/
def hexDigit (c : Char) : Option Nat :=
  if 48 ≤ c.toNat ∧ c.toNat ≤ 57 then some (c.toNat - 48)
  else if 97 ≤ c.toNat ∧ c.toNat ≤ 102 then some (c.toNat - 87)
  else if 65 ≤ c.toNat ∧ c.toNat ≤ 70 then some (c.toNat - 55)
  else none

/-- Value of a run of hexadecimal digit characters. -/
def hexVal (l : List Char) : Option Nat :=
  l.foldl (fun acc c =>
    match acc, hexDigit c with
    | some a, some d => some (16 * a + d)
    | _, _ => none) (some 0)

/-- Negation of a numeric literal value. -/
def pyValNeg : PyVal → PyVal
  | PyVal.int n => PyVal.int (-n)
  | PyVal.float q => PyVal.float ⟨-q.num, q.den⟩
  | v => v

/-- A decimal literal body: a nonempty digit run (int), or two digit
runs around one dot (float), as the replay directives use. -/
def pyDecLiteral (l : List Char) : Option PyVal :=
  if l ≠ [] ∧ l.all Char.isDigit then some (PyVal.int (digitsVal l : Int))
  else
    match splitCharAux '.' [] l with
    | [ip, fp] =>
      if (ip ≠ [] ∨ fp ≠ []) ∧ ip.all Char.isDigit ∧ fp.all Char.isDigit then
        some (PyVal.float ⟨(digitsVal ip * 10 ^ fp.length + digitsVal fp : Nat), 10 ^ fp.length⟩)
      else none
    | _ => none

/-- An unsigned numeric literal body: hex with an 0x / 0X marker,
otherwise decimal. -/
def pyNumLiteral (l : List Char) : Option PyVal :=
  match l with
  | [] => none
  | [c] => pyDecLiteral [c]
  | c0 :: c1 :: rest =>
    if c0 = '0' && (c1 = 'x' || c1 = 'X') then
      if rest = [] then none else (hexVal rest).map (fun n => PyVal.int (n : Int))
    else pyDecLiteral (c0 :: c1 :: rest)

/-- ast.literal_eval on a stripped directive value (Media.py line 286):
True/False, quoted strings (quotes of either kind, no escape
sequences), and optionally signed hex/decimal numerals.  Anything else
fails, and the directive line is then skipped by the bare except at
line 287. -/
def pyLiteralEval (s : String) : Option PyVal :=
  let l := s.data
  if l = "True".data then some (PyVal.bool true)
  else if l = "False".data then some (PyVal.bool false)
  else
    match l with
    | [] => none
    | c :: rest =>
      if c = '"' ∨ c = Char.ofNat 39 then
        match rest.getLast? with
        | some cl =>
          if cl = c ∧ (rest.dropLast).all (fun ch => ch ≠ c ∧ ch ≠ Char.ofNat 92) then
            some (PyVal.str (String.mk rest.dropLast))
          else none
        | none => none
      else if c = '-' then (pyNumLiteral rest).map pyValNeg
      else if c = '+' then pyNumLiteral rest
      else pyNumLiteral l

/-- bytes.strip(): ASCII whitespace removed from both ends. -/
def byteStrip (l : List Nat) : List Nat :=
  ((l.dropWhile (fun b => isSpaceByte b)).reverse.dropWhile (fun b => isSpaceByte b)).reverse

/-- bytes.split(sep, 1) for sep = b"=" followed by the two-target
unpacking k, v = ... : the pieces before and after the first 61 byte,
or none when there is no 61 byte (the unpacking then raises ValueError,
caught by the line-skipping except). -/
def splitEqOnce : List Nat → Option (List Nat × List Nat)
  | [] => none
  | b :: rest =>
    if b = 61 then some ([], rest)
    else (splitEqOnce rest).map (fun q => (b :: q.1, q.2))

/-- Insertion into the params dict: overwriting keeps the original
position, a new key is appended (Python dict insertion order). -/
def dictInsert (ps : List (String × PyVal)) (k : String) (v : PyVal) : List (String × PyVal) :=
  if ps.any (fun q => q.1 = k) then ps.map (fun q => if q.1 = k then (k, v) else q)
  else ps ++ [(k, v)]

/-- params.pop(key, ...): the stored value, if any, and the dict
without the key. -/
def dictPop (ps : List (String × PyVal)) (k : String) :
    Option PyVal × List (String × PyVal) :=
  ((ps.find? (fun q => q.1 = k)).map Prod.snd, ps.filter (fun q => q.1 ≠ k))

/-- key in params. -/
def hasKey (ps : List (String × PyVal)) (k : String) : Bool :=
  ps.any (fun q => q.1 = k)

/-- The parameter-block parse loop of RTPFile.nextparams (Media.py
lines 278-288): one key = value per line; a line whose stripped form
starts with a 35 byte (the comment marker) is skipped, as is any line
with no 61 byte or whose value is not a recognizable literal (the bare
except).  Keys and values are stripped and decoded; byte values at or
above 128 never occur in this repository, so the byte-for-byte decode
of asciiStr is exact. -/
def parseParams (buf : List Nat) : List (String × PyVal) :=
  (bytesSplitlines buf).foldl (fun ps line =>
    if List.isPrefixOf [35] (byteStrip line) then ps
    else
      match splitEqOnce line with
      | none => ps
      | some (k, v) =>
        match pyLiteralEval (asciiStr (byteStrip v)) with
        | none => ps
        | some val => dictInsert ps (asciiStr (byteStrip k)) val) []

/-- RTPFile.readupto (Media.py lines 259-269): read one byte at a
time, accumulating into buf until buf ends with the 4-byte mark; the
content before the mark is returned, the mark consumed.  Hitting end
of input mid search sets eof and returns the empty byte string (the
partial buffer is discarded).  Result: (content, rest of the input,
whether eof was hit). -/
def readupto (mark : List Nat) : List Nat → List Nat → List Nat × List Nat × Bool
  | _, [] => ([], [], true)
  | acc, b :: rest =>
    let acc2 := acc ++ [b]
    if List.isSuffixOf mark acc2 then (acc2.take (acc2.length - mark.length), rest, false)
    else readupto mark acc2 rest

/-- Stream state of an RTPFile object: the unread rest of the input,
the eof flag, the sequence / timestamp / SSRC cursor, the payload
type, the codec triple, the period and the sample count (None until
known).  Directive values are assumed integer-valued where the source
does arithmetic on them, string-valued for codec fields and numeric
for the period: the model raises an explicit error on any other value
kind (no such directive exists in this repository). -/
structure RTPFileState where
  file : List Nat
  eof : Bool
  seq : Int
  TS : Int
  SSRC : Int
  PT : Option Int
  codecPT : Option Int
  codec1 : Option String
  codec2 : Option String
  period : PyFloat
  numsamples : Option Int
deriving DecidableEq, Repr

/-- A directive value used as a Python int (bool counts as int). -/
def pyValInt : PyVal → Except String Int
  | PyVal.int n => Except.ok n
  | PyVal.bool b => Except.ok (if b then 1 else 0)
  | _ => Except.error "TypeError: unsupported operand type"

/-- A directive value used as a Python number (for the period). -/
def pyValFloat : PyVal → Except String PyFloat
  | PyVal.int n => Except.ok ⟨n, 1⟩
  | PyVal.float q => Except.ok q
  | PyVal.bool b => Except.ok ⟨if b then 1 else 0, 1⟩
  | _ => Except.error "TypeError: unsupported operand type"

/-- raise unless the condition holds. -/
def ensure (cond : Bool) (msg : String) : Except String Unit :=
  if cond then Except.ok () else Except.error msg

/-- self.__dict__.update(params) (Media.py line 328): every leftover
key becomes or overwrites an attribute.  Keys naming a modelled
behavioural attribute are applied (integer-valued TS, numsamples,
SSRC, seq; boolean eof); any other leftover key (timestamp among them)
only creates an attribute nothing ever reads and is dropped. -/
def applyUpdate (ps : List (String × PyVal)) (s : RTPFileState) : RTPFileState :=
  ps.foldl (fun acc kv =>
    match kv with
    | ("TS", PyVal.int n) => { acc with TS := n }
    | ("numsamples", PyVal.int n) => { acc with numsamples := some n }
    | ("SSRC", PyVal.int n) => { acc with SSRC := n }
    | ("seq", PyVal.int n) => { acc with seq := n }
    | ("eof", PyVal.bool b) => { acc with eof := b }
    | _ => acc) s

/-- RTPFile.nextparams (Media.py lines 274-328): read the parameter
block up to the next b"<<<<" mark, parse it, then update the stored
values in source order -- dseq (default 1, applied to seq only when
seq is absent, modulo 0xffff = 65535), explicit seq, PT (resetting the
codec triple from the static table), codecname / codecformat
overrides, the PT and codec-name presence checks, period, then the
timestamp: if the KEY timestamp is present the source pops the KEY TS
(raising KeyError when TS is absent); otherwise numsamples is taken
from the block or kept, derived from the codec name when still None
(raising when that fails), and TS advances by numsamples modulo
0xffffffff = 2^32 - 1.  Finally the leftover params are merged by
__dict__.update. -/
def fileNextparams (s0 : RTPFileState) : Except String RTPFileState := do
  let r := readupto [60, 60, 60, 60] [] s0.file
  let s := { s0 with file := r.2.1, eof := s0.eof || r.2.2 }
  let ps := parseParams r.1
  let (dseqV, ps) := dictPop ps "dseq"
  let dseq ← match dseqV with
    | none => Except.ok (1 : Int)
    | some v => pyValInt v
  let (seqV, ps) := dictPop ps "seq"
  let s ← match seqV with
    | some v => do Except.ok { s with seq := (← pyValInt v) }
    | none => Except.ok { s with seq := (s.seq + dseq) % 65535 }
  let (ptV, ps) := dictPop ps "PT"
  let s ← match ptV with
    | some v => do
      let pt ← pyValInt v
      match defaultcodecs pt with
      | some (n, f) =>
        Except.ok { s with PT := some pt, codecPT := some pt, codec1 := some n, codec2 := f }
      | none =>
        Except.ok { s with PT := some pt, codecPT := some pt, codec1 := none, codec2 := none }
    | none => Except.ok s
  let (cnV, ps) := dictPop ps "codecname"
  let s ← match cnV with
    | some (PyVal.str n) => Except.ok { s with codec1 := some n }
    | some _ => Except.error "model: non-string codecname not supported"
    | none => Except.ok s
  let (cfV, ps) := dictPop ps "codecformat"
  let s ← match cfV with
    | some (PyVal.str f) => Except.ok { s with codec2 := some f }
    | some _ => Except.error "model: non-string codecformat not supported"
    | none => Except.ok s
  let _ ← ensure s.PT.isSome "missing PT param"
  let _ ← ensure s.codec1.isSome "missing codecname"
  let (pdV, ps) := dictPop ps "period"
  let s ← match pdV with
    | some v => do Except.ok { s with period := (← pyValFloat v) }
    | none => Except.ok s
  if hasKey ps "timestamp" then
    let (tsV, ps) := dictPop ps "TS"
    match tsV with
    | none => Except.error "KeyError: TS"
    | some v => do
      let n ← pyValInt v
      Except.ok (applyUpdate ps { s with TS := n })
  else do
    let (nsV, ps) := dictPop ps "numsamples"
    let s ← match nsV with
      | some v => do Except.ok { s with numsamples := some (← pyValInt v) }
      | none => Except.ok s
    let s ← match s.numsamples with
      | some _ => Except.ok s
      | none =>
        match deriveNumsamples s.codec1 s.period with
        | some ns => Except.ok { s with numsamples := some ns }
        | none =>
          Except.error "cannot compute TS. Missing timestamp or numsamples or sampling rate in codec name"
    Except.ok (applyUpdate ps { s with TS := (s.TS + s.numsamples.getD 0) % 4294967295 })

/-- RTPFile.nextpayload (Media.py lines 271-272): the bytes up to the
next b">>>>" mark (empty, with eof set, when the input runs out). -/
def fileNextpayload (s : RTPFileState) : List Nat × RTPFileState :=
  let r := readupto [62, 62, 62, 62] [] s.file
  (r.1, { s with file := r.2.1, eof := s.eof || r.2.2 })

/-- The packet fields RTPStream.nextpacket passes to the RTP
constructor for a file stream (Media.py line 239). -/
structure FilePkt where
  payload : List Nat
  PT : Option Int
  seq : Int
  TS : Int
  SSRC : Int
deriving DecidableEq, Repr

/-- RTPStream.nextpacket as executed by an RTPFile (Media.py lines
238-242 with the RTPFile overrides): take the next payload, snapshot
the cursor into a packet, then run the directive machinery, and return
the packet with the (possibly updated) period. -/
def fileNextpacket (s : RTPFileState) : Except String (FilePkt × PyFloat × RTPFileState) := do
  let (pl, s1) := fileNextpayload s
  let pkt : FilePkt :=
    { payload := pl, PT := s1.PT, seq := s1.seq, TS := s1.TS, SSRC := s1.SSRC }
  let s2 ← fileNextparams s1
  Except.ok (pkt, s2.period, s2)

/-- RTPFile.__init__ (Media.py lines 245-257).  Its first statement is
RTPStream.__init__(self), but RTPStream.__init__ (line 201) requires
the positional arguments PT and rtplen, so the call raises TypeError
before any attribute is set: an RTPFile can never be constructed. -/
def rtpfileInit (_rtpfile : List Nat) : Except String RTPFileState :=
  Except.error
    "TypeError: __init__() missing 2 required positional arguments: PT and rtplen"

/-- The replay fixture from the claim (it is also the fixture the
module test block writes, Media.py lines 348-358): a directive block
PT=0, seq=0x100, payload 0123, an empty directive block, payload 4567,
a comment and dseq=2, payload abc, then payload def and end of
input. -/
def fixtureC4 : List Nat :=
  strBytes "\nPT=0\nseq=0x100\n<<<<0123>>>>\n<<<<4567>>>>\n\n#simulating packet lost\ndseq=2\n<<<<abc>>>>\n<<<<def>>>>\n"

/-- The stream state the replay scenario is run from: the fixture at
its start, eof false, the default period 0.020, no stored numsamples,
and zeroed random cursors -- the attributes RTPStream.__init__ would
have provided had its invocation in RTPFile.__init__ not raised. -/
def sC4 : RTPFileState :=
  { file := fixtureC4, eof := false, seq := 0, TS := 0, SSRC := 0,
    PT := none, codecPT := none, codec1 := none, codec2 := none,
    period := defaultPeriod, numsamples := none }

/-- The replay scenario run: the initial directive read of
RTPFile.__init__, then four nextpacket calls; collected are each
packet's (payload, sequence), the final eof flag, and the payload a
fifth read would return.  none if any step raises. -/
def traceC4 : Option (List (List Nat × Int) × Bool × List Nat) :=
  match fileNextparams sC4 with
  | Except.error _ => none
  | Except.ok s1 =>
    match fileNextpacket s1 with
    | Except.error _ => none
    | Except.ok (p1, _, s2) =>
      match fileNextpacket s2 with
      | Except.error _ => none
      | Except.ok (p2, _, s3) =>
        match fileNextpacket s3 with
        | Except.error _ => none
        | Except.ok (p3, _, s4) =>
          match fileNextpacket s4 with
          | Except.error _ => none
          | Except.ok (p4, _, s5) =>
            some ([(p1.payload, p1.seq), (p2.payload, p2.seq),
                   (p3.payload, p3.seq), (p4.payload, p4.seq)],
                  s5.eof, (fileNextpayload s5).1)

/-- C4 counterexample: no FileReplaySource is ever constructed over
the fixture -- RTPFile.__init__ raises TypeError at its very first
statement (RTPStream.__init__ called without its required PT and
rtplen arguments), so the claimed packet emissions cannot happen. -/
theorem cl4_counterexample_init_raises :
    (rtpfileInit fixtureC4).isOk = false := by
  rfl

/-- C4 (amended): RTPFile construction raises TypeError; running the
directive machinery itself from the fixture (state sC4), the initial
parameter read sets sequence 0x100 = 256, the first three nextpacket
calls emit sequences 0x100, 0x101, 0x103 (256, 257, 259) with payloads
0123, 4567, abc -- and a FOURTH packet is emitted with payload def and
sequence 0x104 = 260; eof becomes true only during that fourth call,
whose trailing directive search hits end of input, and it is the fifth
payload read that returns the empty byte string. -/
theorem cl4_replay_trace :
    (rtpfileInit fixtureC4).isOk = false
    ∧ traceC4 = some ([([48, 49, 50, 51], 256), ([52, 53, 54, 55], 257),
        ([97, 98, 99], 259), ([100, 101, 102], 260)], true, []) := by
  exact ⟨rfl, by decide⟩

/-- A healthy replay state about to read a directive block containing
only timestamp=100: payload type 0, codec PCMU/8000, numsamples 160
available. -/
def sC6 : RTPFileState :=
  { file := strBytes "timestamp=100\n<<<<", eof := false, seq := 0, TS := 0, SSRC := 0,
    PT := some 0, codecPT := some 0, codec1 := some "PCMU/8000", codec2 := none,
    period := defaultPeriod, numsamples := some 160 }

/-- A replay state about to read TS=100 with NO way to advance: no
stored numsamples and a codec name (PCMU) with no sampling-rate
token. -/
def sC6b : RTPFileState :=
  { file := strBytes "TS=100\n<<<<", eof := false, seq := 0, TS := 0, SSRC := 0,
    PT := some 0, codecPT := some 0, codec1 := some "PCMU", codec2 := none,
    period := defaultPeriod, numsamples := none }

/-- A healthy replay state about to read TS=100 (numsamples 160
available). -/
def sC6c : RTPFileState :=
  { file := strBytes "TS=100\n<<<<", eof := false, seq := 0, TS := 0, SSRC := 0,
    PT := some 0, codecPT := some 0, codec1 := some "PCMU/8000", codec2 := none,
    period := defaultPeriod, numsamples := some 160 }

/-- C6: explicit-timestamp handling is broken in the source.  The
directive block timestamp=100 raises an uncaught KeyError, because
line 315 checks for the key timestamp but line 316 pops the key TS;
the block TS=100 still raises when neither numsamples nor a derivable
sampling rate is available, because an explicit TS does not divert the
advance path -- so the hard failure does NOT occur exactly when no
explicit timestamp, numsamples or derivable rate is available; and
when the advance path can run, an explicit TS=100 does end up stored
(via the final __dict__.update), overwriting the advanced value. -/
theorem cl6_timestamp_key_mismatch_eval :
    fileNextparams sC6 = Except.error "KeyError: TS"
    ∧ fileNextparams sC6b = Except.error
        "cannot compute TS. Missing timestamp or numsamples or sampling rate in codec name"
    ∧ (fileNextparams sC6c).map (fun s => s.TS) = Except.ok 100 := by
  refine ⟨by rfl, by rfl, by rfl⟩
